import Mathlib

/-!
Verification of the Windows sandboxed-process launcher
(`grr_response_client/unprivileged/windows/process.py`).

The module launches a child process with an explicit handle-inheritance
whitelist and a pair of anonymous pipes for communication.  We embed
`Process.__init__` and `Process.Stop` shallowly: every native call
(ctypes `kernel32` entry points and pywin32 wrappers) is modelled by an
oracle that fixes the call's outcome, and the embedded functions return
the ordered trace of native calls performed together with either the
resulting process record or the exception raised.
-/

namespace GrrProcess

/-- A win32 HANDLE value, modelled by its numeric value. -/
abbrev Handle := Nat

/-- `EXTENDED_STARTUPINFO_PRESENT` creation flag (process.py line 184). -/
def EXTENDED_STARTUPINFO_PRESENT : Nat := 0x00080000

/-- `PROC_THREAD_ATTRIBUTE_HANDLE_LIST` attribute kind (process.py line 186). -/
def PROC_THREAD_ATTRIBUTE_HANDLE_LIST : Nat := 0x20002

/-- `win32event.INFINITE` timeout value. -/
def INFINITE : Nat := 0xFFFFFFFF

/-- `win32event.WAIT_FAILED` wait result. -/
def WAIT_FAILED : Nat := 0xFFFFFFFF

/-- Exceptions that can escape the embedded code.

`moduleError msg` is the module's own `Error` exception class
(process.py line 169), raised by the module with an explicit message.
`pywinError call` is the exception a pywin32 wrapper (`win32api`,
`win32process`) raises itself when the underlying API call fails; it is
a distinct exception type not derived from the module's `Error`. -/
inductive Err where
  | moduleError (msg : String)
  | pywinError (call : String)
deriving DecidableEq

/-- The arguments the embedded code passes to `CreateProcessW`
(process.py lines 246-257).  Pointer arguments that the code passes as
NULL are recorded by `Bool` fields stating they were null; the startup
info is summarised by the fields the code sets: `wShowWindow` and the
attribute list content attached via `UpdateProcThreadAttribute`. -/
structure CreateProcessArgs where
  lpApplicationName : Option String
  lpCommandLine : String
  lpProcessAttributesNull : Bool
  lpThreadAttributesNull : Bool
  bInheritHandles : Bool
  dwCreationFlags : Nat
  lpEnvironmentNull : Bool
  lpCurrentDirectoryNull : Bool
  wShowWindow : Bool
  attrHandleList : List Handle
deriving DecidableEq

/-- One native call performed by the embedded code, with its arguments
and (where the code can observe it) its outcome. -/
inductive WinEvent where
  | createPipe (readEnd writeEnd : Handle) (inheritable : Bool)
  | initAttrListProbe (attrCount : Nat) (reportedSize : Nat) (probeOk : Bool)
  | initAttrList (bufSize : Nat) (attrCount : Nat) (ok : Bool)
  | updateAttr (attrKind : Nat) (handles : List Handle) (cbSize : Nat) (ok : Bool)
  | deleteAttrList
  | makeCommandLine (inputRemote outputRemote : Handle) (result : String)
  | createProcess (args : CreateProcessArgs) (ok : Bool)
  | closeHandle (h : Handle) (ok : Bool)
  | terminateProcess (h : Handle) (exitCode : Int) (ok : Bool)
  | waitForSingleObject (h : Handle) (timeoutMs : Nat) (res : Nat)
deriving DecidableEq

/-- Outcomes of the native calls `Process.__init__` makes, in program
order.  `pipe1`/`pipe2` give the (read, write) handle pair produced by
each `CreatePipe` call, or `none` for failure.  `probeSize` is the
required-size value stored by the first (probing)
`InitializeProcThreadAttributeList` call and `probeOk` its ignored
success flag.  `hProcess`/`hThread` are the handles `CreateProcessW`
stores in `PROCESS_INFORMATION` on success.  `sizeofHandle` is
`ctypes.sizeof(HANDLE)` on the host. -/
structure InitOracle where
  pipe1 : Option (Handle × Handle)
  pipe2 : Option (Handle × Handle)
  probeOk : Bool
  probeSize : Nat
  initOk : Bool
  updateOk : Bool
  createOk : Bool
  hProcess : Handle
  hThread : Handle
  closeRemoteInputOk : Bool
  closeRemoteOutputOk : Bool
  closeThreadOk : Bool
  sizeofHandle : Nat
deriving DecidableEq

/-- The state a successfully constructed `Process` object holds:
`self.input` (local write end of the input pipe), `self.output`
(local read end of the output pipe) and `self._handle` (the child's
process handle). -/
structure Process where
  input : Handle
  output : Handle
  handle : Handle
deriving DecidableEq

/-- Shallow embedding of `Process.__init__` (process.py lines 195-267),
including the inlined `CreatePipeWrapper` calls (lines 173-181).
Returns the trace of native calls performed, paired with the
constructed record or the exception that aborted construction. -/
def ProcessInit (o : InitOracle) (make_command_line : Handle → Handle → String)
    (extra_handles : Option (List Handle)) : List WinEvent × Except Err Process :=
  -- remote_input, local_input = CreatePipeWrapper()
  match o.pipe1 with
  | none => ([], Except.error (Err.moduleError "CreatePipe failed."))
  | some (remote_input, local_input) =>
  let t1 := [WinEvent.createPipe remote_input local_input true]
  -- local_output, remote_output = CreatePipeWrapper()
  match o.pipe2 with
  | none => (t1, Except.error (Err.moduleError "CreatePipe failed."))
  | some (local_output, remote_output) =>
  let t2 := t1 ++ [WinEvent.createPipe local_output remote_output true]
  -- InitializeProcThreadAttributeList(None, 1, 0, byref(size)) : result ignored
  -- attr_list = create_string_buffer(size.value)
  -- res = InitializeProcThreadAttributeList(attr_list, 1, 0, byref(size))
  let t3 := t2 ++ [WinEvent.initAttrListProbe 1 o.probeSize o.probeOk,
                   WinEvent.initAttrList o.probeSize 1 o.initOk]
  if o.initOk = false then
    (t3, Except.error (Err.moduleError "InitializeProcThreadAttributeList failed."))
  else
  -- if extra_handles is None: extra_handles = []
  let extra := extra_handles.getD []
  let handle_list_size := 2 + extra.length
  let handle_list := remote_input :: remote_output :: extra
  -- res = UpdateProcThreadAttribute(attr_list, 0, PROC_THREAD_ATTRIBUTE_HANDLE_LIST,
  --                                 handle_list, sizeof(handle_list), None, None)
  let t4 := t3 ++ [WinEvent.updateAttr PROC_THREAD_ATTRIBUTE_HANDLE_LIST handle_list
                    (o.sizeofHandle * handle_list_size) o.updateOk]
  if o.updateOk = false then
    (t4, Except.error (Err.moduleError "UpdateProcThreadAttribute failed."))
  else
  let t5 := t4 ++ [WinEvent.deleteAttrList]
  -- make_command_line(remote_input.value, remote_output.value)
  let cmd := make_command_line remote_input remote_output
  let args : CreateProcessArgs :=
    { lpApplicationName := none
      lpCommandLine := cmd
      lpProcessAttributesNull := true
      lpThreadAttributesNull := true
      bInheritHandles := true
      dwCreationFlags := EXTENDED_STARTUPINFO_PRESENT
      lpEnvironmentNull := true
      lpCurrentDirectoryNull := true
      wShowWindow := false
      attrHandleList := handle_list }
  let t6 := t5 ++ [WinEvent.makeCommandLine remote_input remote_output cmd,
                   WinEvent.createProcess args o.createOk]
  if o.createOk = false then
    (t6, Except.error (Err.moduleError "CreateProcessW failed."))
  else
  -- win32api.CloseHandle(remote_input.value)
  let t7 := t6 ++ [WinEvent.closeHandle remote_input o.closeRemoteInputOk]
  if o.closeRemoteInputOk = false then (t7, Except.error (Err.pywinError "CloseHandle"))
  else
  -- win32api.CloseHandle(remote_output.value)
  let t8 := t7 ++ [WinEvent.closeHandle remote_output o.closeRemoteOutputOk]
  if o.closeRemoteOutputOk = false then (t8, Except.error (Err.pywinError "CloseHandle"))
  else
  -- self._handle = pi.hProcess; win32api.CloseHandle(pi.hThread)
  let t9 := t8 ++ [WinEvent.closeHandle o.hThread o.closeThreadOk]
  if o.closeThreadOk = false then (t9, Except.error (Err.pywinError "CloseHandle"))
  else
  (t9, Except.ok { input := local_input, output := local_output, handle := o.hProcess })

/-- Outcomes of the native calls `Process.Stop` makes, in program
order.  `waitRes` is the status code `win32event.WaitForSingleObject`
returns. -/
structure StopOracle where
  closeInputOk : Bool
  closeOutputOk : Bool
  terminateOk : Bool
  waitRes : Nat
  closeProcessOk : Bool
deriving DecidableEq

/-- Shallow embedding of `Process.Stop` (process.py lines 269-276). -/
def ProcessStop (p : Process) (o : StopOracle) : List WinEvent × Except Err Unit :=
  -- win32api.CloseHandle(self.input)
  let t1 := [WinEvent.closeHandle p.input o.closeInputOk]
  if o.closeInputOk = false then (t1, Except.error (Err.pywinError "CloseHandle"))
  else
  -- win32api.CloseHandle(self.output)
  let t2 := t1 ++ [WinEvent.closeHandle p.output o.closeOutputOk]
  if o.closeOutputOk = false then (t2, Except.error (Err.pywinError "CloseHandle"))
  else
  -- win32process.TerminateProcess(self._handle, -1)
  let t3 := t2 ++ [WinEvent.terminateProcess p.handle (-1) o.terminateOk]
  if o.terminateOk = false then (t3, Except.error (Err.pywinError "TerminateProcess"))
  else
  -- res = win32event.WaitForSingleObject(self._handle, win32event.INFINITE)
  let t4 := t3 ++ [WinEvent.waitForSingleObject p.handle INFINITE o.waitRes]
  if o.waitRes = WAIT_FAILED then
    (t4, Except.error (Err.moduleError "WaitForSingleObject failed."))
  else
  -- win32api.CloseHandle(self._handle)
  let t5 := t4 ++ [WinEvent.closeHandle p.handle o.closeProcessOk]
  if o.closeProcessOk = false then (t5, Except.error (Err.pywinError "CloseHandle"))
  else (t5, Except.ok ())

/-- Recognises `closeHandle` events in a trace. -/
def WinEvent.isClose : WinEvent → Bool
  | .closeHandle _ _ => true
  | _ => false

/-- Recognises `updateAttr` events in a trace. -/
def WinEvent.isUpdateAttr : WinEvent → Bool
  | .updateAttr _ _ _ _ => true
  | _ => false

/-- Recognises `createProcess` events in a trace. -/
def WinEvent.isCreateProcess : WinEvent → Bool
  | .createProcess _ _ => true
  | _ => false

/-- Recognises `makeCommandLine` events in a trace. -/
def WinEvent.isMakeCommandLine : WinEvent → Bool
  | .makeCommandLine _ _ _ => true
  | _ => false

/-- The command line passed to a `createProcess` event, if any. -/
def WinEvent.cmdLineOf : WinEvent → Option String
  | .createProcess a _ => some a.lpCommandLine
  | _ => none

/-- Whether a result is the module's own `Error` exception
(as opposed to success or a pywin32 exception). -/
def isModuleError (r : Except Err Unit) : Bool :=
  match r with
  | Except.error (Err.moduleError _) => true
  | _ => false

/-- An all-successful oracle on concrete handle values, used to
evaluate the embedding at concrete inputs.  Pipe 1 is the input pipe
(read end 1 goes to the child, write end 2 stays local), pipe 2 is the
output pipe (read end 3 stays local, write end 4 goes to the child). -/
def oraOk : InitOracle :=
  { pipe1 := some (1, 2)
    pipe2 := some (3, 4)
    probeOk := false
    probeSize := 72
    initOk := true
    updateOk := true
    createOk := true
    hProcess := 10
    hThread := 11
    closeRemoteInputOk := true
    closeRemoteOutputOk := true
    closeThreadOk := true
    sizeofHandle := 8 }

/-- Claim C1, counterexample.  With pipes `(1, 2)` and `(3, 4)` and one
extra handle `9`, the output channel's child end is `4` and the input
channel's child end is `1`; the claim predicts the whitelist
`[4, 1, 9]`, but the code builds `[1, 4, 9]` (input child end first). -/
theorem whitelist_order_claim_false :
    ¬ ((ProcessInit oraOk (fun _ _ => "cmd") (some [9])).1.filter WinEvent.isUpdateAttr =
        [WinEvent.updateAttr PROC_THREAD_ATTRIBUTE_HANDLE_LIST [4, 1, 9] (8 * 3) true]) ∧
    (ProcessInit oraOk (fun _ _ => "cmd") (some [9])).1.filter WinEvent.isUpdateAttr =
      [WinEvent.updateAttr PROC_THREAD_ATTRIBUTE_HANDLE_LIST [1, 4, 9] (8 * 3) true] := by
  constructor
  · decide
  · decide

/-- Claim C1, amended.  For every launch that reaches the whitelist
step, the handle whitelist attached to the attribute block is built
from the two remote pipe endpoints followed by the caller-supplied
extra handles, with the input channel's child end (`remote_input`)
first and the output channel's child end (`remote_output`) second:
`[inputChannel.childEnd, outputChannel.childEnd] ++ extraHandles`. -/
theorem whitelist_order (o : InitOracle) (mk : Handle → Handle → String)
    (extra : Option (List Handle)) (ri li lo ro : Handle)
    (h1 : o.pipe1 = some (ri, li)) (h2 : o.pipe2 = some (lo, ro))
    (h3 : o.initOk = true) :
    (ProcessInit o mk extra).1.filter WinEvent.isUpdateAttr =
      [WinEvent.updateAttr PROC_THREAD_ATTRIBUTE_HANDLE_LIST
        (ri :: ro :: extra.getD [])
        (o.sizeofHandle * (2 + (extra.getD []).length)) o.updateOk] := by
  cases hu : o.updateOk <;> cases hc : o.createOk <;>
    cases k1 : o.closeRemoteInputOk <;> cases k2 : o.closeRemoteOutputOk <;>
      cases k3 : o.closeThreadOk <;>
        simp [ProcessInit, h1, h2, h3, hu, hc, k1, k2, k3,
          WinEvent.isUpdateAttr, List.filter]

/-- Witness for `whitelist_order` at the concrete oracle `oraOk` with
one extra handle. -/
theorem whitelist_order_witness :
    (ProcessInit oraOk (fun _ _ => "cmd") (some [9])).1.filter WinEvent.isUpdateAttr =
      [WinEvent.updateAttr PROC_THREAD_ATTRIBUTE_HANDLE_LIST
        (1 :: 4 :: (some [9] : Option (List Handle)).getD [])
        (oraOk.sizeofHandle * (2 + ((some [9] : Option (List Handle)).getD []).length))
        oraOk.updateOk] :=
  whitelist_order oraOk (fun _ _ => "cmd") (some [9]) 1 2 3 4 rfl rfl rfl

/-- Claim C2.  When `CreateProcessW` succeeds (and the subsequent
`CloseHandle` calls succeed, as they do on valid handles), the
construction performs exactly this trace: the three `CloseHandle`
calls that follow process creation close the two remote endpoints and
the child's primary thread handle, in that order, and the resulting
record holds exactly the process handle plus the local input (write)
and output (read) endpoints — no other endpoint is closed nor
retained. -/
theorem remote_ends_closed_on_success (o : InitOracle)
    (mk : Handle → Handle → String) (extra : Option (List Handle))
    (ri li lo ro : Handle)
    (h1 : o.pipe1 = some (ri, li)) (h2 : o.pipe2 = some (lo, ro))
    (h3 : o.initOk = true) (h4 : o.updateOk = true) (h5 : o.createOk = true)
    (h6 : o.closeRemoteInputOk = true) (h7 : o.closeRemoteOutputOk = true)
    (h8 : o.closeThreadOk = true) :
    ProcessInit o mk extra =
      ([WinEvent.createPipe ri li true,
        WinEvent.createPipe lo ro true,
        WinEvent.initAttrListProbe 1 o.probeSize o.probeOk,
        WinEvent.initAttrList o.probeSize 1 true,
        WinEvent.updateAttr PROC_THREAD_ATTRIBUTE_HANDLE_LIST
          (ri :: ro :: extra.getD [])
          (o.sizeofHandle * (2 + (extra.getD []).length)) true,
        WinEvent.deleteAttrList,
        WinEvent.makeCommandLine ri ro (mk ri ro),
        WinEvent.createProcess
          { lpApplicationName := none
            lpCommandLine := mk ri ro
            lpProcessAttributesNull := true
            lpThreadAttributesNull := true
            bInheritHandles := true
            dwCreationFlags := EXTENDED_STARTUPINFO_PRESENT
            lpEnvironmentNull := true
            lpCurrentDirectoryNull := true
            wShowWindow := false
            attrHandleList := ri :: ro :: extra.getD [] } true,
        WinEvent.closeHandle ri true,
        WinEvent.closeHandle ro true,
        WinEvent.closeHandle o.hThread true],
       Except.ok { input := li, output := lo, handle := o.hProcess }) := by
  simp [ProcessInit, h1, h2, h3, h4, h5, h6, h7, h8]

/-- Witness for `remote_ends_closed_on_success` at the concrete oracle
`oraOk` with no extra handles. -/
theorem remote_ends_closed_on_success_witness :
    ProcessInit oraOk (fun _ _ => "cmd") none =
      ([WinEvent.createPipe 1 2 true,
        WinEvent.createPipe 3 4 true,
        WinEvent.initAttrListProbe 1 oraOk.probeSize oraOk.probeOk,
        WinEvent.initAttrList oraOk.probeSize 1 true,
        WinEvent.updateAttr PROC_THREAD_ATTRIBUTE_HANDLE_LIST
          (1 :: 4 :: (none : Option (List Handle)).getD [])
          (oraOk.sizeofHandle * (2 + ((none : Option (List Handle)).getD []).length)) true,
        WinEvent.deleteAttrList,
        WinEvent.makeCommandLine 1 4 "cmd",
        WinEvent.createProcess
          { lpApplicationName := none
            lpCommandLine := "cmd"
            lpProcessAttributesNull := true
            lpThreadAttributesNull := true
            bInheritHandles := true
            dwCreationFlags := EXTENDED_STARTUPINFO_PRESENT
            lpEnvironmentNull := true
            lpCurrentDirectoryNull := true
            wShowWindow := false
            attrHandleList := 1 :: 4 :: (none : Option (List Handle)).getD [] } true,
        WinEvent.closeHandle 1 true,
        WinEvent.closeHandle 4 true,
        WinEvent.closeHandle oraOk.hThread true],
       Except.ok { input := 2, output := 3, handle := oraOk.hProcess }) :=
  remote_ends_closed_on_success oraOk (fun _ _ => "cmd") none 1 2 3 4
    rfl rfl rfl rfl rfl rfl rfl rfl

/-- Claim C3.  `Stop` performs exactly, in order: close the local
input endpoint, close the local output endpoint, a forceful
`TerminateProcess` with the fixed exit code `-1` (non-zero), an
unbounded `WaitForSingleObject` with timeout `INFINITE`, and — only
after the wait did not fail — close the process handle. -/
theorem stop_sequence (p : Process) (o : StopOracle)
    (h1 : o.closeInputOk = true) (h2 : o.closeOutputOk = true)
    (h3 : o.terminateOk = true) (h4 : ¬ o.waitRes = WAIT_FAILED)
    (h5 : o.closeProcessOk = true) :
    ProcessStop p o =
      ([WinEvent.closeHandle p.input true,
        WinEvent.closeHandle p.output true,
        WinEvent.terminateProcess p.handle (-1) true,
        WinEvent.waitForSingleObject p.handle INFINITE o.waitRes,
        WinEvent.closeHandle p.handle true],
       Except.ok ()) ∧ (-1 : Int) ≠ 0 := by
  refine ⟨?_, by decide⟩
  simp [ProcessStop, h1, h2, h3, h4, h5]

/-- Witness for `stop_sequence`: a concrete record and a stop oracle
whose wait returns `WAIT_OBJECT_0 = 0`. -/
theorem stop_sequence_witness :
    ProcessStop { input := 2, output := 3, handle := 10 }
        { closeInputOk := true, closeOutputOk := true, terminateOk := true,
          waitRes := 0, closeProcessOk := true } =
      ([WinEvent.closeHandle 2 true,
        WinEvent.closeHandle 3 true,
        WinEvent.terminateProcess 10 (-1) true,
        WinEvent.waitForSingleObject 10 INFINITE 0,
        WinEvent.closeHandle 10 true],
       Except.ok ()) ∧ (-1 : Int) ≠ 0 :=
  stop_sequence { input := 2, output := 3, handle := 10 }
    { closeInputOk := true, closeOutputOk := true, terminateOk := true,
      waitRes := 0, closeProcessOk := true }
    rfl rfl rfl (by decide) rfl

/-- Claim C4.  When `CreateProcessW` fails after the pipes and the
attribute block were built, the constructor raises the module error
`CreateProcessW failed.` (no process record is produced), and the
trace up to that point contains no `CloseHandle` call at all: the four
pipe endpoints created earlier in the launch attempt stay open. -/
theorem create_process_failure_leaks (o : InitOracle)
    (mk : Handle → Handle → String) (extra : Option (List Handle))
    (ri li lo ro : Handle)
    (h1 : o.pipe1 = some (ri, li)) (h2 : o.pipe2 = some (lo, ro))
    (h3 : o.initOk = true) (h4 : o.updateOk = true)
    (h5 : o.createOk = false) :
    (ProcessInit o mk extra).2 =
      Except.error (Err.moduleError "CreateProcessW failed.") ∧
    (ProcessInit o mk extra).1.all (fun e => ! WinEvent.isClose e) = true := by
  constructor <;>
    simp [ProcessInit, h1, h2, h3, h4, h5, WinEvent.isClose, List.all_eq_true]

/-- Witness for `create_process_failure_leaks` at a concrete oracle
whose `CreateProcessW` fails. -/
theorem create_process_failure_leaks_witness :
    (ProcessInit { oraOk with createOk := false } (fun _ _ => "cmd") none).2 =
      Except.error (Err.moduleError "CreateProcessW failed.") ∧
    (ProcessInit { oraOk with createOk := false }
        (fun _ _ => "cmd") none).1.all (fun e => ! WinEvent.isClose e) = true :=
  create_process_failure_leaks { oraOk with createOk := false }
    (fun _ _ => "cmd") none 1 2 3 4 rfl rfl rfl rfl rfl

/-- Claim C5.  The attribute block is built by the two-call probing
pattern: right after the two pipe creations the trace shows the
size-query call (null destination buffer, one attribute entry) and
then the real initialization of a buffer of exactly the reported size
with capacity for one attribute; the probe call's own success flag is
ignored (the outcome of construction is independent of it), and a
failure of the second initialization call raises the module error
`InitializeProcThreadAttributeList failed.`. -/
theorem attr_block_two_call_probe (o : InitOracle)
    (mk : Handle → Handle → String) (extra : Option (List Handle))
    (ri li lo ro : Handle)
    (h1 : o.pipe1 = some (ri, li)) (h2 : o.pipe2 = some (lo, ro)) :
    (ProcessInit o mk extra).1.take 4 =
      [WinEvent.createPipe ri li true,
       WinEvent.createPipe lo ro true,
       WinEvent.initAttrListProbe 1 o.probeSize o.probeOk,
       WinEvent.initAttrList o.probeSize 1 o.initOk] ∧
    (o.initOk = false →
      (ProcessInit o mk extra).2 =
        Except.error (Err.moduleError "InitializeProcThreadAttributeList failed.")) ∧
    (ProcessInit { o with probeOk := true } mk extra).2 =
      (ProcessInit { o with probeOk := false } mk extra).2 := by
  refine ⟨?_, ?_, ?_⟩ <;>
    cases hi : o.initOk <;> cases hu : o.updateOk <;> cases hc : o.createOk <;>
      cases k1 : o.closeRemoteInputOk <;> cases k2 : o.closeRemoteOutputOk <;>
        cases k3 : o.closeThreadOk <;>
          simp [ProcessInit, h1, h2, hi, hu, hc, k1, k2, k3]

/-- Witness for `attr_block_two_call_probe` at a concrete oracle whose
second initialization call fails. -/
theorem attr_block_two_call_probe_witness :
    ((ProcessInit { oraOk with initOk := false } (fun _ _ => "cmd") none).1.take 4 =
      [WinEvent.createPipe 1 2 true,
       WinEvent.createPipe 3 4 true,
       WinEvent.initAttrListProbe 1 ({ oraOk with initOk := false } : InitOracle).probeSize
         ({ oraOk with initOk := false } : InitOracle).probeOk,
       WinEvent.initAttrList ({ oraOk with initOk := false } : InitOracle).probeSize 1
         ({ oraOk with initOk := false } : InitOracle).initOk]) ∧
    (({ oraOk with initOk := false } : InitOracle).initOk = false →
      (ProcessInit { oraOk with initOk := false } (fun _ _ => "cmd") none).2 =
        Except.error (Err.moduleError "InitializeProcThreadAttributeList failed.")) ∧
    (ProcessInit { { oraOk with initOk := false } with probeOk := true }
        (fun _ _ => "cmd") none).2 =
      (ProcessInit { { oraOk with initOk := false } with probeOk := false }
        (fun _ _ => "cmd") none).2 :=
  attr_block_two_call_probe { oraOk with initOk := false }
    (fun _ _ => "cmd") none 1 2 3 4 rfl rfl

/-- Claim C6.  The handle inheritance list attached as the single
attribute has exactly `2 + len(extraHandles)` entries and is attached
with byte length `sizeof(handle) * (2 + len(extraHandles))`. -/
theorem handle_list_count (o : InitOracle)
    (mk : Handle → Handle → String) (extra : Option (List Handle))
    (ri li lo ro : Handle)
    (h1 : o.pipe1 = some (ri, li)) (h2 : o.pipe2 = some (lo, ro))
    (h3 : o.initOk = true) :
    (ProcessInit o mk extra).1.filter WinEvent.isUpdateAttr =
      [WinEvent.updateAttr PROC_THREAD_ATTRIBUTE_HANDLE_LIST
        (ri :: ro :: extra.getD [])
        (o.sizeofHandle * (2 + (extra.getD []).length)) o.updateOk] ∧
    (ri :: ro :: extra.getD []).length = 2 + (extra.getD []).length := by
  refine ⟨?_, by simp; omega⟩
  cases hu : o.updateOk <;> cases hc : o.createOk <;>
    cases k1 : o.closeRemoteInputOk <;> cases k2 : o.closeRemoteOutputOk <;>
      cases k3 : o.closeThreadOk <;>
        simp [ProcessInit, h1, h2, h3, hu, hc, k1, k2, k3,
          WinEvent.isUpdateAttr, List.filter]

/-- Witness for `handle_list_count` at the concrete oracle `oraOk`
with two extra handles. -/
theorem handle_list_count_witness :
    ((ProcessInit oraOk (fun _ _ => "cmd") (some [7, 9])).1.filter WinEvent.isUpdateAttr =
      [WinEvent.updateAttr PROC_THREAD_ATTRIBUTE_HANDLE_LIST
        (1 :: 4 :: (some [7, 9] : Option (List Handle)).getD [])
        (oraOk.sizeofHandle * (2 + ((some [7, 9] : Option (List Handle)).getD []).length))
        oraOk.updateOk]) ∧
    (1 :: 4 :: (some [7, 9] : Option (List Handle)).getD []).length =
      2 + ((some [7, 9] : Option (List Handle)).getD []).length :=
  handle_list_count oraOk (fun _ _ => "cmd") (some [7, 9]) 1 2 3 4 rfl rfl rfl

/-- Claim C7, counterexample.  When the termination request fails,
`Stop` propagates the pywin32 wrapper's own exception
(`win32process.TerminateProcess` raises it directly), not the module's
`Error`: the claim that termination failure "also raises
PlatformError" is false on the code. -/
theorem stop_terminate_failure_not_module_error :
    (ProcessStop { input := 2, output := 3, handle := 10 }
        { closeInputOk := true, closeOutputOk := true, terminateOk := false,
          waitRes := 0, closeProcessOk := true }).2 =
      Except.error (Err.pywinError "TerminateProcess") ∧
    isModuleError (ProcessStop { input := 2, output := 3, handle := 10 }
        { closeInputOk := true, closeOutputOk := true, terminateOk := false,
          waitRes := 0, closeProcessOk := true }).2 = false := by
  constructor
  · rfl
  · rfl

/-- Claim C7, amended.  In `Stop`, a platform-level failure of the
wait operation raises the module error `WaitForSingleObject failed.`;
a failure of the termination request is also fatal — it aborts `Stop`
before the wait, leaving the process handle unclosed — but it
surfaces as the pywin32 wrapper's own exception rather than the
module's error class. -/
theorem stop_error_policy (p : Process) (o : StopOracle)
    (h1 : o.closeInputOk = true) (h2 : o.closeOutputOk = true) :
    (o.terminateOk = true → o.waitRes = WAIT_FAILED →
      (ProcessStop p o).2 =
        Except.error (Err.moduleError "WaitForSingleObject failed.")) ∧
    (o.terminateOk = false →
      ProcessStop p o =
        ([WinEvent.closeHandle p.input true,
          WinEvent.closeHandle p.output true,
          WinEvent.terminateProcess p.handle (-1) false],
         Except.error (Err.pywinError "TerminateProcess"))) := by
  constructor
  · intro ht hw
    simp [ProcessStop, h1, h2, ht, hw]
  · intro ht
    simp [ProcessStop, h1, h2, ht]

/-- Witness for `stop_error_policy`: at a concrete stop oracle whose
wait fails, the module error is raised. -/
theorem stop_error_policy_witness :
    (ProcessStop { input := 2, output := 3, handle := 10 }
        { closeInputOk := true, closeOutputOk := true, terminateOk := true,
          waitRes := WAIT_FAILED, closeProcessOk := true }).2 =
      Except.error (Err.moduleError "WaitForSingleObject failed.") :=
  (stop_error_policy { input := 2, output := 3, handle := 10 }
    { closeInputOk := true, closeOutputOk := true, terminateOk := true,
      waitRes := WAIT_FAILED, closeProcessOk := true } rfl rfl).1 rfl rfl

/-- Claim C8.  The `CreateProcessW` call receives: a null application
name, the generated command line, null (default) process and thread
security attributes, handle inheritance enabled, the creation flags
equal to `EXTENDED_STARTUPINFO_PRESENT`, a null environment and
current directory, the startup info's `wShowWindow` cleared (window
suppressed), and the built handle whitelist as the attribute-block
content of the extended startup info. -/
theorem create_process_invocation (o : InitOracle)
    (mk : Handle → Handle → String) (extra : Option (List Handle))
    (ri li lo ro : Handle)
    (h1 : o.pipe1 = some (ri, li)) (h2 : o.pipe2 = some (lo, ro))
    (h3 : o.initOk = true) (h4 : o.updateOk = true) :
    (ProcessInit o mk extra).1.filter WinEvent.isCreateProcess =
      [WinEvent.createProcess
        { lpApplicationName := none
          lpCommandLine := mk ri ro
          lpProcessAttributesNull := true
          lpThreadAttributesNull := true
          bInheritHandles := true
          dwCreationFlags := EXTENDED_STARTUPINFO_PRESENT
          lpEnvironmentNull := true
          lpCurrentDirectoryNull := true
          wShowWindow := false
          attrHandleList := ri :: ro :: extra.getD [] } o.createOk] := by
  cases hc : o.createOk <;>
    cases k1 : o.closeRemoteInputOk <;> cases k2 : o.closeRemoteOutputOk <;>
      cases k3 : o.closeThreadOk <;>
        simp [ProcessInit, h1, h2, h3, h4, hc, k1, k2, k3,
          WinEvent.isCreateProcess, List.filter]

/-- Witness for `create_process_invocation` at the concrete oracle
`oraOk`. -/
theorem create_process_invocation_witness :
    (ProcessInit oraOk (fun a b => toString a ++ " " ++ toString b)
        (some [9])).1.filter WinEvent.isCreateProcess =
      [WinEvent.createProcess
        { lpApplicationName := none
          lpCommandLine := "1 4"
          lpProcessAttributesNull := true
          lpThreadAttributesNull := true
          bInheritHandles := true
          dwCreationFlags := EXTENDED_STARTUPINFO_PRESENT
          lpEnvironmentNull := true
          lpCurrentDirectoryNull := true
          wShowWindow := false
          attrHandleList := 1 :: 4 :: (some [9] : Option (List Handle)).getD [] }
        oraOk.createOk] :=
  create_process_invocation oraOk (fun a b => toString a ++ " " ++ toString b)
    (some [9]) 1 2 3 4 rfl rfl rfl rfl

/-- Claim C9.  The command-line factory is invoked exactly once per
launch, on the numeric values of the input remote and output remote
endpoints in that order, and its result is exactly the command line
passed to `CreateProcessW`. -/
theorem command_line_factory_once (o : InitOracle)
    (mk : Handle → Handle → String) (extra : Option (List Handle))
    (ri li lo ro : Handle)
    (h1 : o.pipe1 = some (ri, li)) (h2 : o.pipe2 = some (lo, ro))
    (h3 : o.initOk = true) (h4 : o.updateOk = true) :
    (ProcessInit o mk extra).1.filter WinEvent.isMakeCommandLine =
      [WinEvent.makeCommandLine ri ro (mk ri ro)] ∧
    (ProcessInit o mk extra).1.filterMap WinEvent.cmdLineOf = [mk ri ro] := by
  constructor <;>
    cases hc : o.createOk <;>
      cases k1 : o.closeRemoteInputOk <;> cases k2 : o.closeRemoteOutputOk <;>
        cases k3 : o.closeThreadOk <;>
          simp [ProcessInit, h1, h2, h3, h4, hc, k1, k2, k3,
            WinEvent.isMakeCommandLine, WinEvent.cmdLineOf,
            List.filter, List.filterMap]

/-- Witness for `command_line_factory_once` at the concrete oracle
`oraOk`. -/
theorem command_line_factory_once_witness :
    ((ProcessInit oraOk (fun a b => toString a ++ " " ++ toString b)
        none).1.filter WinEvent.isMakeCommandLine =
      [WinEvent.makeCommandLine 1 4 "1 4"]) ∧
    (ProcessInit oraOk (fun a b => toString a ++ " " ++ toString b)
        none).1.filterMap WinEvent.cmdLineOf = ["1 4"] :=
  command_line_factory_once oraOk (fun a b => toString a ++ " " ++ toString b)
    none 1 2 3 4 rfl rfl rfl rfl

/-- Claim C10.  Passing `none` for the extra handles is identical to
passing the explicit empty list — same trace, same result — and the
whitelist then contains exactly the two remote endpoints. -/
theorem extra_handles_none_default (o : InitOracle)
    (mk : Handle → Handle → String) (ri li lo ro : Handle)
    (h1 : o.pipe1 = some (ri, li)) (h2 : o.pipe2 = some (lo, ro))
    (h3 : o.initOk = true) :
    ProcessInit o mk none = ProcessInit o mk (some []) ∧
    (ProcessInit o mk none).1.filter WinEvent.isUpdateAttr =
      [WinEvent.updateAttr PROC_THREAD_ATTRIBUTE_HANDLE_LIST [ri, ro]
        (o.sizeofHandle * 2) o.updateOk] := by
  refine ⟨rfl, ?_⟩
  cases hu : o.updateOk <;> cases hc : o.createOk <;>
    cases k1 : o.closeRemoteInputOk <;> cases k2 : o.closeRemoteOutputOk <;>
      cases k3 : o.closeThreadOk <;>
        simp [ProcessInit, h1, h2, h3, hu, hc, k1, k2, k3,
          WinEvent.isUpdateAttr, List.filter]

/-- Witness for `extra_handles_none_default` at the concrete oracle
`oraOk`. -/
theorem extra_handles_none_default_witness :
    (ProcessInit oraOk (fun _ _ => "cmd") none =
      ProcessInit oraOk (fun _ _ => "cmd") (some [])) ∧
    (ProcessInit oraOk (fun _ _ => "cmd") none).1.filter WinEvent.isUpdateAttr =
      [WinEvent.updateAttr PROC_THREAD_ATTRIBUTE_HANDLE_LIST [1, 4]
        (oraOk.sizeofHandle * 2) oraOk.updateOk] :=
  extra_handles_none_default oraOk (fun _ _ => "cmd") 1 2 3 4 rfl rfl rfl

end GrrProcess
